import Mathlib

/-!
Shallow embedding of the Credit_Approval_backend core (src/loans/helper.py and
src/loans/views.py) over exact rational arithmetic, together with theorems
settling the spec claims.

Modelling conventions:
* Python numbers (ints and floats) are embedded as `ℤ` / `ℚ`; the float
  arithmetic of the source is modelled exactly over `ℚ`.
* Python `round(x, 2)` and `round(n, -5)` use round-half-to-even; `pyRound`
  embeds that tie rule.
* Python `int(x)` on a float truncates toward zero; `pyInt` embeds that.
* Django ORM state (Customer / Loan tables) is an explicit `State` record;
  `Customer.objects.get` becomes `List.find?`, `Loan.objects.filter` becomes
  `List.filter`, and `Loan.objects.create` / `customer.save()` become the two
  sequential state writes `createLoanWrite` and `saveCustomerWrite`.
* `date.today()` is passed in as an explicit `PyDate` (injectable clock).
* Request fields are modelled as present numeric values; the Python
  `not all([...])` validation treats the number `0` as falsy, which the
  embedding reproduces literally.
* In `ℚ`, division by zero yields 0, which coincides with the
  `except ZeroDivisionError: monthly_installment = 0.0` handler of the source, so the
  amortization expression needs no explicit guard.
-/

namespace CreditApproval

/-- The Python built-in `round` to an integer: round half to even. -/
def pyRound (q : ℚ) : ℤ :=
  if q - ⌊q⌋ = 1 / 2 then (if 2 ∣ ⌊q⌋ then ⌊q⌋ else ⌊q⌋ + 1) else round q

/-- Python `round(x, 2)`: round to two decimal places. -/
def round2 (q : ℚ) : ℚ := (pyRound (q * 100) : ℚ) / 100

/-- Python `round(n, -5)` on an integer: round to the nearest multiple of 100000
(half to even), as used for `approved_limit` in `register_customer`. -/
def roundLakh (n : ℤ) : ℤ := 100000 * pyRound ((n : ℚ) / 100000)

/-- Python `int(x)` on a float: truncation toward zero. -/
def pyInt (q : ℚ) : ℤ := if 0 ≤ q then ⌊q⌋ else -⌊-q⌋

/-- Python `in` on strings, specialised to character lists: `pat` starts `s`. -/
def startsWithChars : List Char → List Char → Bool
  | [], _ => true
  | _ :: _, [] => false
  | a :: as, b :: bs => a == b && startsWithChars as bs

/-- `hasSubChars p s`: the character list `p` occurs contiguously inside `s`. -/
def hasSubChars (p : List Char) : List Char → Bool
  | [] => startsWithChars p []
  | c :: rest => startsWithChars p (c :: rest) || hasSubChars p rest

/-- Python `pat in s` for strings. -/
def pyIn (pat s : String) : Bool := hasSubChars pat.toList s.toList

/-- Customer record (fields of `loans.models.Customer` used by the core). -/
structure Customer where
  customer_id : ℤ
  monthly_salary : ℤ
  approved_limit : ℤ
  current_debt : ℤ
deriving Repr, DecidableEq

/-- Calendar date, standing in for Python `datetime.date`. -/
structure PyDate where
  year : ℤ
  month : ℤ
  day : ℤ
deriving Repr, DecidableEq

/-- Loan record (fields of `loans.models.Loan` used by the core). -/
structure Loan where
  loan_id : ℤ
  customer_id : ℤ
  loan_amount : ℚ
  tenure : ℤ
  interest_rate : ℚ
  monthly_repayment : ℚ
  emis_paid_on_time : ℤ
  start_date : PyDate
  end_date : PyDate
deriving Repr, DecidableEq

/-- `loans.helper.calculate_credit_score`, with `date.today().year` passed in
as `today_year`. -/
def calculate_credit_score (today_year : ℤ) (customer : Customer)
    (loans : List Loan) : ℚ :=
  if customer.current_debt > customer.approved_limit then 0
  else
    let total_loans : ℤ := loans.length
    if total_loans = 0 then 50
    else
      let emis_paid : ℤ := (loans.map (·.emis_paid_on_time)).sum
      let emis_total : ℤ := (loans.map (·.tenure)).sum
      let on_time_ratio : ℚ :=
        if emis_total ≠ 0 then (emis_paid : ℚ) / (emis_total : ℚ) else 0
      let score_on_time : ℚ := on_time_ratio * 40
      let loan_count_score : ℚ := ((max 0 (10 - total_loans) : ℤ) : ℚ) * 1.5
      let recent_loans := loans.filter (fun l => l.start_date.year == today_year)
      let recent_activity_score : ℚ :=
        max (15 - ((recent_loans.length : ℤ) : ℚ) * 3) 0
      let volume_ratio : ℚ :=
        if customer.approved_limit ≠ 0 then
          (customer.current_debt : ℚ) / (customer.approved_limit : ℚ)
        else 0
      let volume_score : ℚ := (1 - volume_ratio) * 30
      let total_score :=
        score_on_time + loan_count_score + recent_activity_score + volume_score
      round2 (max 0 (min 100 total_score))

/-- Step 3 of `check_eligibility` (views.py lines 98-105): the corrected
interest rate for a given credit score. -/
def correct_rate (credit_score interest_rate : ℚ) : ℚ :=
  if 30 < credit_score ∧ credit_score ≤ 50 then
    if interest_rate < 12 then 12 else interest_rate
  else if 10 < credit_score ∧ credit_score ≤ 30 then
    if interest_rate < 16 then 16 else interest_rate
  else interest_rate

/-- Step 5 of `check_eligibility` (views.py lines 121-126): the amortization
formula `P*R*(1+R)^N / ((1+R)^N - 1)` with monthly rate `R`.  In `ℚ` the
division-by-zero case yields 0, exactly the value the
`except ZeroDivisionError` handler of the source assigns. -/
def monthly_installment_formula (P R : ℚ) (N : ℤ) : ℚ :=
  P * R * (1 + R) ^ N / ((1 + R) ^ N - 1)

/-- Successful (HTTP 200) response body of `check_eligibility`. -/
structure EligibilityOk where
  customer_id : ℤ
  approval : Bool
  interest_rate : ℚ
  corrected_interest_rate : ℚ
  tenure : ℤ
  monthly_installment : ℚ
  reason : Option String
deriving Repr, DecidableEq

/-- Steps 1-7 of `check_eligibility` (views.py lines 83-163), after the
customer lookup has succeeded: compute the score, correct the rate, check the
EMI burden, compute the installment and decide approval.  Every outcome of
this phase is an HTTP 200 response. -/
def evaluate_eligibility (today_year : ℤ) (customer : Customer)
    (loans : List Loan) (customer_id : ℤ) (loan_amount interest_rate : ℚ)
    (tenure : ℤ) : EligibilityOk :=
  let credit_score := calculate_credit_score today_year customer loans
  if credit_score = 0 then
    { customer_id := customer_id, approval := false,
      interest_rate := interest_rate,
      corrected_interest_rate := interest_rate, tenure := tenure,
      monthly_installment := 0,
      reason := some "Overutilized credit limit" }
  else
    let corrected_interest_rate := correct_rate credit_score interest_rate
    let total_existing_emi := (loans.map (·.monthly_repayment)).sum
    if total_existing_emi > 0.5 * (customer.monthly_salary : ℚ) then
      { customer_id := customer_id, approval := false,
        interest_rate := interest_rate,
        corrected_interest_rate := corrected_interest_rate,
        tenure := tenure, monthly_installment := 0,
        reason := some "Existing EMI burden exceeds 50% of salary" }
    else
      let R := corrected_interest_rate / (12 * 100)
      let monthly_installment :=
        monthly_installment_formula loan_amount R tenure
      let decision : Bool × String :=
        if credit_score > 50 then (true, "")
        else if 30 < credit_score ∧ credit_score ≤ 50 then
          if corrected_interest_rate ≥ 12 then (true, "")
          else (false, "Interest rate too low for credit score range 30-50")
        else if 10 < credit_score ∧ credit_score ≤ 30 then
          if corrected_interest_rate ≥ 16 then (true, "")
          else (false, "Interest rate too low for credit score range 10-30")
        else (false, "Credit score too low (≤10)")
      let approval := decision.1
      let reasonStr := decision.2
      let reasonOut : Option String :=
        if ¬approval ∧ reasonStr ≠ "" then some reasonStr
        else if ¬approval then some "Credit score too low" else none
      { customer_id := customer_id, approval := approval,
        interest_rate := interest_rate,
        corrected_interest_rate := corrected_interest_rate,
        tenure := tenure,
        monthly_installment := round2 monthly_installment,
        reason := reasonOut }

/-- `loans.views.check_eligibility`.  `today_year` is the injected clock,
`customers` and `all_loans` the data-store contents; errors are the 400/404
JSON error responses.  The field validation is the Python
`not all([customer_id, loan_amount, interest_rate, tenure])`, under which the
number 0 is falsy. -/
def check_eligibility (today_year : ℤ) (customers : List Customer)
    (all_loans : List Loan) (customer_id : ℤ) (loan_amount interest_rate : ℚ)
    (tenure : ℤ) : Except String EligibilityOk :=
  if customer_id = 0 ∨ loan_amount = 0 ∨ interest_rate = 0 ∨ tenure = 0 then
    .error "Missing required fields"
  else
    match customers.find? (fun c => c.customer_id == customer_id) with
    | none => .error "Customer not found"
    | some customer =>
      let loans := all_loans.filter (fun l => l.customer_id == customer_id)
      .ok (evaluate_eligibility today_year customer loans customer_id
            loan_amount interest_rate tenure)

/-! ### Branch lemmas for the scorer and the evaluator -/

lemma calculate_credit_score_overutilized (ty : ℤ) (c : Customer)
    (loans : List Loan) (h : c.approved_limit < c.current_debt) :
    calculate_credit_score ty c loans = 0 := by
  simp [calculate_credit_score, h]

lemma calculate_credit_score_no_loans (ty : ℤ) (c : Customer)
    (h : c.current_debt ≤ c.approved_limit) :
    calculate_credit_score ty c [] = 50 := by
  simp [calculate_credit_score, not_lt.mpr h]

lemma evaluate_eligibility_score_zero (ty : ℤ) (c : Customer)
    (loans : List Loan) (cid : ℤ) (amt rate : ℚ) (ten : ℤ)
    (h : calculate_credit_score ty c loans = 0) :
    evaluate_eligibility ty c loans cid amt rate ten =
      ⟨cid, false, rate, rate, ten, 0, some "Overutilized credit limit"⟩ := by
  simp [evaluate_eligibility, h]

lemma check_eligibility_eq_ok (ty : ℤ) (cs : List Customer) (ls : List Loan)
    (cid : ℤ) (amt rate : ℚ) (ten : ℤ) (c : Customer)
    (hv : ¬(cid = 0 ∨ amt = 0 ∨ rate = 0 ∨ ten = 0))
    (hfind : cs.find? (fun x => x.customer_id == cid) = some c) :
    check_eligibility ty cs ls cid amt rate ten =
      .ok (evaluate_eligibility ty c
            (ls.filter (fun l => l.customer_id == cid)) cid amt rate ten) := by
  simp only [check_eligibility, if_neg hv, hfind]

/-! ### Concrete scenario data -/

/-- The customer of the first scenario of the spec: no debt, limit 3,600,000,
salary 100,000. -/
def c1_customer : Customer :=
  { customer_id := 1, monthly_salary := 100000, approved_limit := 3600000,
    current_debt := 0 }

/-- An overutilized customer: debt 200 above limit 100. -/
def over_customer : Customer :=
  { customer_id := 1, monthly_salary := 100, approved_limit := 100,
    current_debt := 200 }

/-! ### Claims -/

/-- C1: for a customer with current_debt 0, approved_limit 3,600,000, salary
100,000 and no loans, `check_eligibility` on amount 500,000 at rate 10 with
tenure 24 computes credit score 50 and returns corrected_interest_rate 12,
approval true, and a strictly positive monthly installment. -/
theorem C1_new_customer_scenario :
    calculate_credit_score 2024 c1_customer [] = 50 ∧
    ∃ e, check_eligibility 2024 [c1_customer] [] 1 500000 10 24 = .ok e ∧
      e.corrected_interest_rate = 12 ∧ e.approval = true ∧
      0 < e.monthly_installment := by
  refine ⟨by decide, ⟨_, rfl, ?_, ?_, ?_⟩⟩ <;> with_unfolding_all decide

/-- C2: whenever current_debt exceeds approved_limit, the credit score is 0
for any loan history, and `check_eligibility` (on a request that passes field
validation and finds the customer) returns approval false with reason
"Overutilized credit limit", installment 0 and the requested rate unchanged. -/
theorem C2_overutilized_rejection (ty : ℤ) (cs : List Customer)
    (ls : List Loan) (cid : ℤ) (amt rate : ℚ) (ten : ℤ) (c : Customer)
    (hv : ¬(cid = 0 ∨ amt = 0 ∨ rate = 0 ∨ ten = 0))
    (hfind : cs.find? (fun x => x.customer_id == cid) = some c)
    (hover : c.approved_limit < c.current_debt) :
    calculate_credit_score ty c (ls.filter (fun l => l.customer_id == cid)) = 0 ∧
    check_eligibility ty cs ls cid amt rate ten =
      .ok ⟨cid, false, rate, rate, ten, 0, some "Overutilized credit limit"⟩ := by
  have hs := calculate_credit_score_overutilized ty c
    (ls.filter (fun l => l.customer_id == cid)) hover
  refine ⟨hs, ?_⟩
  rw [check_eligibility_eq_ok ty cs ls cid amt rate ten c hv hfind,
    evaluate_eligibility_score_zero _ _ _ _ _ _ _ hs]

/-- Witness for C2 at a concrete overutilized customer. -/
theorem C2_overutilized_rejection_witness :
    calculate_credit_score 2024 over_customer [] = 0 ∧
    check_eligibility 2024 [over_customer] [] 1 10 10 10 =
      .ok ⟨1, false, 10, 10, 10, 0, some "Overutilized credit limit"⟩ :=
  C2_overutilized_rejection 2024 [over_customer] [] 1 10 10 10 over_customer
    (by decide) (by decide) (by decide)

/-- An existing loan whose EMI is 60,000, as in the EMI-burden scenario of
the spec. -/
def emi_loan : Loan :=
  { loan_id := 1, customer_id := 1, loan_amount := 100000, tenure := 12,
    interest_rate := 10, monthly_repayment := 60000, emis_paid_on_time := 6,
    start_date := ⟨2023, 1, 1⟩, end_date := ⟨2024, 1, 1⟩ }

/-- C3: the code rejects a request with interest_rate = 0 as a validation
error ("Missing required fields"), even for a customer with a nonzero credit
score and no EMI burden, because the Python truthiness check
`not all([customer_id, loan_amount, interest_rate, tenure])` treats the
number 0 as a missing field.  The spec instead requires the zero-rate
evaluation to succeed with installment 0. -/
theorem C3_zero_rate_rejected_as_missing_fields :
    calculate_credit_score 2024 c1_customer [] ≠ 0 ∧
    (([] : List Loan).map (·.monthly_repayment)).sum ≤
      0.5 * (c1_customer.monthly_salary : ℚ) ∧
    check_eligibility 2024 [c1_customer] [] 1 500000 0 24 =
      .error "Missing required fields" := by
  refine ⟨by decide, by with_unfolding_all decide, ?_⟩
  simp [check_eligibility]

/-- C5: with a nonzero credit score and existing EMIs summing to more than
half the monthly salary, `check_eligibility` returns approval false with
reason "Existing EMI burden exceeds 50% of salary", installment 0, and the
corrected rate from the rate-correction step. -/
theorem C5_emi_burden_rejection (ty : ℤ) (cs : List Customer) (ls : List Loan)
    (cid : ℤ) (amt rate : ℚ) (ten : ℤ) (c : Customer)
    (hv : ¬(cid = 0 ∨ amt = 0 ∨ rate = 0 ∨ ten = 0))
    (hfind : cs.find? (fun x => x.customer_id == cid) = some c)
    (hscore :
      calculate_credit_score ty c (ls.filter (fun l => l.customer_id == cid)) ≠ 0)
    (hemi :
      (((ls.filter (fun l => l.customer_id == cid)).map (·.monthly_repayment)).sum) >
        0.5 * (c.monthly_salary : ℚ)) :
    check_eligibility ty cs ls cid amt rate ten =
      .ok ⟨cid, false, rate,
        correct_rate
          (calculate_credit_score ty c (ls.filter (fun l => l.customer_id == cid)))
          rate,
        ten, 0, some "Existing EMI burden exceeds 50% of salary"⟩ := by
  rw [check_eligibility_eq_ok ty cs ls cid amt rate ten c hv hfind]
  simp [evaluate_eligibility, hscore, hemi]

/-- Witness for C5: salary 100,000 with one existing loan of EMI 60,000. -/
theorem C5_emi_burden_rejection_witness :
    check_eligibility 2024 [c1_customer] [emi_loan] 1 500000 10 24 =
      .ok ⟨1, false, 10,
        correct_rate
          (calculate_credit_score 2024 c1_customer
            ([emi_loan].filter (fun l => l.customer_id == 1)))
          10,
        24, 0, some "Existing EMI burden exceeds 50% of salary"⟩ :=
  C5_emi_burden_rejection 2024 [c1_customer] [emi_loan] 1 500000 10 24
    c1_customer (by decide) (by decide)
    (by with_unfolding_all decide) (by with_unfolding_all decide)

/-! ### Rate-correction floor lemmas -/

lemma correct_rate_floor_30_50 (s r : ℚ) (h1 : 30 < s) (h2 : s ≤ 50) :
    12 ≤ correct_rate s r := by
  unfold correct_rate
  rw [if_pos ⟨h1, h2⟩]
  split_ifs with h
  · norm_num
  · exact le_of_not_lt h

lemma correct_rate_floor_10_30 (s r : ℚ) (h1 : 10 < s) (h2 : s ≤ 30) :
    16 ≤ correct_rate s r := by
  unfold correct_rate
  rw [if_neg (by rintro ⟨h3, _⟩; linarith), if_pos ⟨h1, h2⟩]
  split_ifs with h
  · norm_num
  · exact le_of_not_lt h

/-- In the non-overutilized, non-EMI-burden branch, the returned corrected
rate is exactly `correct_rate` of the score and requested rate. -/
lemma evaluate_eligibility_corrected (ty : ℤ) (c : Customer)
    (loans : List Loan) (cid : ℤ) (amt rate : ℚ) (ten : ℤ)
    (happ : (evaluate_eligibility ty c loans cid amt rate ten).approval = true) :
    (evaluate_eligibility ty c loans cid amt rate ten).corrected_interest_rate =
      correct_rate (calculate_credit_score ty c loans) rate := by
  simp only [evaluate_eligibility] at happ ⊢
  split_ifs at happ ⊢ <;> simp_all

/-- Inversion: a 200 response of `check_eligibility` comes from
`evaluate_eligibility` on the customer found in the store. -/
lemma check_eligibility_ok_inv (ty : ℤ) (cs : List Customer) (ls : List Loan)
    (cid : ℤ) (amt rate : ℚ) (ten : ℤ) (e : EligibilityOk)
    (hok : check_eligibility ty cs ls cid amt rate ten = .ok e) :
    ∃ c, cs.find? (fun x => x.customer_id == cid) = some c ∧
      e = evaluate_eligibility ty c (ls.filter (fun l => l.customer_id == cid))
            cid amt rate ten := by
  unfold check_eligibility at hok
  split at hok
  · exact absurd hok (by simp)
  · cases hfind : cs.find? (fun x => x.customer_id == cid) with
    | none => rw [hfind] at hok; simp at hok
    | some c =>
      rw [hfind] at hok
      simp only [Except.ok.injEq] at hok
      exact ⟨c, rfl, hok.symm⟩

/-- C4: every approved evaluation satisfies the band floor: corrected rate at
least 12 when the score is in (30,50], and at least 16 when it is in
(10,30]. -/
theorem C4_approval_meets_band_floor (ty : ℤ) (cs : List Customer)
    (ls : List Loan) (cid : ℤ) (amt rate : ℚ) (ten : ℤ) (e : EligibilityOk)
    (c : Customer)
    (hok : check_eligibility ty cs ls cid amt rate ten = .ok e)
    (hfind : cs.find? (fun x => x.customer_id == cid) = some c)
    (happ : e.approval = true) :
    (30 < calculate_credit_score ty c (ls.filter (fun l => l.customer_id == cid)) ∧
      calculate_credit_score ty c (ls.filter (fun l => l.customer_id == cid)) ≤ 50 →
      12 ≤ e.corrected_interest_rate) ∧
    (10 < calculate_credit_score ty c (ls.filter (fun l => l.customer_id == cid)) ∧
      calculate_credit_score ty c (ls.filter (fun l => l.customer_id == cid)) ≤ 30 →
      16 ≤ e.corrected_interest_rate) := by
  obtain ⟨c2, hfind2, he⟩ :=
    check_eligibility_ok_inv ty cs ls cid amt rate ten e hok
  rw [hfind] at hfind2
  cases hfind2
  subst he
  have hc := evaluate_eligibility_corrected ty c
    (ls.filter (fun l => l.customer_id == cid)) cid amt rate ten happ
  rw [hc]
  exact ⟨fun h => correct_rate_floor_30_50 _ _ h.1 h.2,
    fun h => correct_rate_floor_10_30 _ _ h.1 h.2⟩

/-- The two "Interest rate too low" rejection reasons of the decision step
are unreachable: in their score bands the corrected rate always meets the
floor. -/
lemma evaluate_eligibility_reason_not_low_rate (ty : ℤ) (c : Customer)
    (loans : List Loan) (cid : ℤ) (amt rate : ℚ) (ten : ℤ) :
    (evaluate_eligibility ty c loans cid amt rate ten).reason ≠
      some "Interest rate too low for credit score range 30-50" ∧
    (evaluate_eligibility ty c loans cid amt rate ten).reason ≠
      some "Interest rate too low for credit score range 10-30" := by
  simp only [evaluate_eligibility]
  split_ifs <;> simp_all
  all_goals rename_i hband hlow
  · exact absurd (correct_rate_floor_30_50 _ _ hband.1 hband.2) (not_le.mpr hlow)
  · exact absurd (correct_rate_floor_10_30 _ _ hband.1 hband.2) (not_le.mpr hlow)

/-- C8: no 200 response of `check_eligibility` ever carries one of the two
"Interest rate too low" rejection reasons; those branches are dead because
the rate-correction step already enforces the band floors. -/
theorem C8_low_rate_rejections_unreachable (ty : ℤ) (cs : List Customer)
    (ls : List Loan) (cid : ℤ) (amt rate : ℚ) (ten : ℤ) (e : EligibilityOk)
    (hok : check_eligibility ty cs ls cid amt rate ten = .ok e) :
    e.reason ≠ some "Interest rate too low for credit score range 30-50" ∧
    e.reason ≠ some "Interest rate too low for credit score range 10-30" := by
  obtain ⟨c, _, he⟩ := check_eligibility_ok_inv ty cs ls cid amt rate ten e hok
  subst he
  exact evaluate_eligibility_reason_not_low_rate ty c _ cid amt rate ten

/-- Witness for C8 at the overutilized customer. -/
theorem C8_low_rate_rejections_unreachable_witness :
    (⟨1, false, 10, 10, 10, 0, some "Overutilized credit limit"⟩ :
        EligibilityOk).reason ≠
      some "Interest rate too low for credit score range 30-50" ∧
    (⟨1, false, 10, 10, 10, 0, some "Overutilized credit limit"⟩ :
        EligibilityOk).reason ≠
      some "Interest rate too low for credit score range 10-30" :=
  C8_low_rate_rejections_unreachable 2024 [over_customer] [] 1 10 10 10
    ⟨1, false, 10, 10, 10, 0, some "Overutilized credit limit"⟩
    (by with_unfolding_all rfl)

/-- A small customer used for approval-path witnesses: salary 100, limit 100,
no debt, no loans; a request of 1200 at rate 120 for one month is approved
with installment 1320. -/
def approve_customer : Customer :=
  { customer_id := 1, monthly_salary := 100, approved_limit := 100,
    current_debt := 0 }

/-- Witness for C4 at an approved concrete evaluation. -/
theorem C4_approval_meets_band_floor_witness :
    (30 < calculate_credit_score 2024 approve_customer
        (([] : List Loan).filter (fun l => l.customer_id == 1)) ∧
      calculate_credit_score 2024 approve_customer
        (([] : List Loan).filter (fun l => l.customer_id == 1)) ≤ 50 →
      12 ≤ (120 : ℚ)) ∧
    (10 < calculate_credit_score 2024 approve_customer
        (([] : List Loan).filter (fun l => l.customer_id == 1)) ∧
      calculate_credit_score 2024 approve_customer
        (([] : List Loan).filter (fun l => l.customer_id == 1)) ≤ 30 →
      16 ≤ (120 : ℚ)) :=
  C4_approval_meets_band_floor 2024 [approve_customer] [] 1 1200 120 1
    ⟨1, true, 120, 120, 1, 1320, none⟩ approve_customer
    (by with_unfolding_all rfl) (by decide) rfl

/-- `loans.views.register_customer` (views.py lines 13-48): the registered
customer starts with no debt and `approved_limit = round(36 * monthly_income, -5)`. -/
def register_customer (customer_id monthly_income : ℤ) : Customer :=
  { customer_id := customer_id, monthly_salary := monthly_income,
    approved_limit := roundLakh (36 * monthly_income), current_debt := 0 }

/-- `pyRound` lands within 1/2 of its argument. -/
lemma pyRound_dist (q : ℚ) : |((pyRound q : ℤ) : ℚ) - q| ≤ 1 / 2 := by
  unfold pyRound
  split_ifs with ht hev
  · have h : q - (⌊q⌋ : ℚ) = 1 / 2 := ht
    rw [abs_le]
    constructor <;> linarith
  · have h : q - (⌊q⌋ : ℚ) = 1 / 2 := ht
    rw [abs_le]
    constructor <;> push_cast <;> linarith
  · rw [abs_sub_comm]
    exact abs_sub_round q

/-- `pyRound q` is an integer nearest to `q`. -/
lemma pyRound_nearest (q : ℚ) (k : ℤ) :
    |((pyRound q : ℤ) : ℚ) - q| ≤ |(k : ℚ) - q| := by
  by_cases hk : k = pyRound q
  · subst hk; exact le_refl _
  · have hne : k - pyRound q ≠ 0 := sub_ne_zero.mpr hk
    have h1 : (1 : ℚ) ≤ |(k : ℚ) - ((pyRound q : ℤ) : ℚ)| := by
      have := Int.one_le_abs hne
      calc (1 : ℚ) = ((1 : ℤ) : ℚ) := by norm_num
        _ ≤ ((|k - pyRound q| : ℤ) : ℚ) := by exact_mod_cast this
        _ = |(k : ℚ) - ((pyRound q : ℤ) : ℚ)| := by push_cast [Int.cast_abs]; ring_nf
    have h2 := pyRound_dist q
    have h3 := abs_sub_le (k : ℚ) q ((pyRound q : ℤ) : ℚ)
    have h4 : |q - ((pyRound q : ℤ) : ℚ)| = |((pyRound q : ℤ) : ℚ) - q| :=
      abs_sub_comm _ _
    linarith

/-- C9: registering with monthly_income 73,000 gives approved_limit 2,600,000;
in general the approved limit is a multiple of 100,000 at minimal distance
from 36 times the monthly income. -/
theorem C9_register_approved_limit :
    (register_customer 1 73000).approved_limit = 2600000 ∧
    ∀ i m : ℤ, (100000 : ℤ) ∣ (register_customer i m).approved_limit ∧
      ∀ k : ℤ, |(register_customer i m).approved_limit - 36 * m| ≤
        |100000 * k - 36 * m| := by
  refine ⟨by with_unfolding_all decide, fun i m => ⟨⟨_, rfl⟩, fun k => ?_⟩⟩
  have hqm : (100000 : ℚ) * (((36 * m : ℤ) : ℚ) / 100000) = ((36 * m : ℤ) : ℚ) := by
    field_simp
  have key := pyRound_nearest (((36 * m : ℤ) : ℚ) / 100000) k
  have key2 : |(100000 : ℚ) * ((pyRound (((36 * m : ℤ) : ℚ) / 100000) : ℤ) : ℚ) -
        ((36 * m : ℤ) : ℚ)| ≤
      |(100000 : ℚ) * (k : ℚ) - ((36 * m : ℤ) : ℚ)| := by
    have e1 : (100000 : ℚ) * ((pyRound (((36 * m : ℤ) : ℚ) / 100000) : ℤ) : ℚ) -
        ((36 * m : ℤ) : ℚ) =
        100000 * (((pyRound (((36 * m : ℤ) : ℚ) / 100000) : ℤ) : ℚ) -
          ((36 * m : ℤ) : ℚ) / 100000) := by
      rw [mul_sub, hqm]
    have e2 : (100000 : ℚ) * (k : ℚ) - ((36 * m : ℤ) : ℚ) =
        100000 * ((k : ℚ) - ((36 * m : ℤ) : ℚ) / 100000) := by
      rw [mul_sub, hqm]
    rw [e1, e2, abs_mul, abs_mul, abs_of_pos (show (0 : ℚ) < 100000 by norm_num)]
    exact mul_le_mul_of_nonneg_left key (by norm_num)
  show (|roundLakh (36 * m) - 36 * m| : ℤ) ≤ |100000 * k - 36 * m|
  simp only [roundLakh]
  exact_mod_cast key2

/-- Geometric-sum bound: `x^n - 1 ≤ n * (x - 1) * x^n` for `x ≥ 1`. -/
lemma geom_bound (x : ℚ) (hx : 1 ≤ x) (n : ℕ) :
    x ^ n - 1 ≤ n * (x - 1) * x ^ n := by
  induction n with
  | zero => simp
  | succ n ih =>
    have h0 : (0 : ℚ) ≤ x := le_trans zero_le_one hx
    have h2 : (1 : ℚ) ≤ x ^ (n + 1) := one_le_pow₀ hx
    have h3 : x * (x ^ n - 1) ≤ x * ((n : ℚ) * (x - 1) * x ^ n) :=
      mul_le_mul_of_nonneg_left ih h0
    have h5 : (x - 1) ≤ (x - 1) * x ^ (n + 1) :=
      le_mul_of_one_le_right (sub_nonneg.mpr hx) h2
    calc x ^ (n + 1) - 1 = x * (x ^ n - 1) + (x - 1) := by rw [pow_succ]; ring
      _ ≤ x * ((n : ℚ) * (x - 1) * x ^ n) + (x - 1) := by linarith
      _ = (n : ℚ) * (x - 1) * x ^ (n + 1) + (x - 1) := by rw [pow_succ]; ring
      _ ≤ (n : ℚ) * (x - 1) * x ^ (n + 1) + (x - 1) * x ^ (n + 1) := by linarith
      _ = ((n + 1 : ℕ) : ℚ) * (x - 1) * x ^ (n + 1) := by push_cast; ring

/-- C10: for positive principal, positive monthly rate and positive tenure,
the installment of the amortization formula is positive and the total of the
installments is at least the principal. -/
theorem C10_amortization_repays_principal (P R : ℚ) (N : ℤ)
    (hP : 0 < P) (hR : 0 < R) (hN : 0 < N) :
    0 < monthly_installment_formula P R N ∧
    P ≤ monthly_installment_formula P R N * (N : ℚ) := by
  lift N to ℕ using hN.le with n hn
  have hnpos : 0 < n := by exact_mod_cast hN
  have hx : (1 : ℚ) < 1 + R := by linarith
  have hxpow : (1 : ℚ) < (1 + R) ^ n := one_lt_pow₀ hx hnpos.ne'
  have hform : monthly_installment_formula P R (n : ℤ) =
      P * R * (1 + R) ^ n / ((1 + R) ^ n - 1) := by
    unfold monthly_installment_formula
    rw [zpow_natCast]
  have hden : (0 : ℚ) < (1 + R) ^ n - 1 := by linarith
  have hnum : (0 : ℚ) < P * R * (1 + R) ^ n := by positivity
  constructor
  · rw [hform]
    exact div_pos hnum hden
  · push_cast
    rw [hform, div_mul_eq_mul_div, le_div_iff₀ hden]
    have hg := geom_bound (1 + R) hx.le n
    have hg2 : (1 + R) ^ n - 1 ≤ (n : ℚ) * R * (1 + R) ^ n := by
      rw [add_sub_cancel_left] at hg
      exact hg
    calc P * ((1 + R) ^ n - 1) ≤ P * ((n : ℚ) * R * (1 + R) ^ n) :=
        mul_le_mul_of_nonneg_left hg2 hP.le
      _ = P * R * (1 + R) ^ n * (n : ℚ) := by ring

/-- Witness for C10 at principal 1200, monthly rate 1/10, tenure 1. -/
theorem C10_amortization_repays_principal_witness :
    0 < monthly_installment_formula 1200 (1 / 10) 1 ∧
    (1200 : ℚ) ≤ monthly_installment_formula 1200 (1 / 10) 1 * ((1 : ℤ) : ℚ) :=
  C10_amortization_repays_principal 1200 (1 / 10) 1 (by norm_num) (by norm_num)
    (by norm_num)

/-! ### Loan origination (`loans.views.create_loan`) -/

/-- The data store: the Customer and Loan tables and the next auto-assigned
loan primary key. -/
structure State where
  customers : List Customer
  loans : List Loan
  next_loan_id : ℤ
deriving Repr, DecidableEq

/-- `customer.current_debt += delta; customer.save()` as a table update. -/
def updateCustomerDebt (customers : List Customer) (cid delta : ℤ) :
    List Customer :=
  customers.map (fun c =>
    if c.customer_id == cid then
      { c with current_debt := c.current_debt + delta }
    else c)

/-- First write of the approved branch: `Loan.objects.create(...)`. -/
def createLoanWrite (loan : Loan) (st : State) : State :=
  { st with loans := st.loans ++ [loan], next_loan_id := st.next_loan_id + 1 }

/-- Second write of the approved branch:
`customer.current_debt += int(loan_amount); customer.save()`. -/
def saveCustomerWrite (cid delta : ℤ) (st : State) : State :=
  { st with customers := updateCustomerDebt st.customers cid delta }

/-- Gregorian leap year. -/
def isLeapYear (y : ℤ) : Bool :=
  (y % 4 == 0 && y % 100 != 0) || y % 400 == 0

/-- Days in a month of a given year. -/
def daysInMonth (y m : ℤ) : ℤ :=
  if m = 2 then (if isLeapYear y then 29 else 28)
  else if m = 4 ∨ m = 6 ∨ m = 9 ∨ m = 11 then 30
  else 31

/-- `date + relativedelta(months=n)`: add months, clamping the day to the
length of the target month. -/
def addMonths (d : PyDate) (n : ℤ) : PyDate :=
  let t := d.year * 12 + (d.month - 1) + n
  let y := t.fdiv 12
  let m := t.fmod 12 + 1
  { year := y, month := m, day := min d.day (daysInMonth y m) }

/-- Successful (200/201) response body of `create_loan`. -/
structure CreateLoanOk where
  loan_id : Option ℤ
  customer_id : ℤ
  loan_approved : Bool
  message : String
  monthly_installment : ℚ
deriving Repr, DecidableEq

/-- `loans.views.create_loan` (views.py lines 171-261): validate fields,
re-run `check_eligibility`, and on approval perform the two sequential
writes `createLoanWrite` then `saveCustomerWrite` (no transaction wraps
them). Returns the response together with the final store state. -/
def create_loan (today : PyDate) (st : State) (customer_id : ℤ)
    (loan_amount interest_rate : ℚ) (tenure : ℤ) :
    Except String CreateLoanOk × State :=
  if customer_id = 0 ∨ loan_amount = 0 ∨ interest_rate = 0 ∨ tenure = 0 then
    (.error "Missing required fields", st)
  else
    match check_eligibility today.year st.customers st.loans customer_id
        loan_amount interest_rate tenure with
    | .error e => (.error e, st)
    | .ok elig =>
      if ¬elig.approval then
        let reason := elig.reason.getD ""
        let message :=
          if pyIn "Overutilized credit limit" reason then
            "Loan not approved due to overutilized credit limit"
          else if pyIn "EMI burden" reason then
            "Loan not approved due to existing EMI burden exceeding 50% of salary"
          else "Loan not approved due to low credit score"
        (.ok { loan_id := none, customer_id := customer_id,
               loan_approved := false, message := message,
               monthly_installment := 0 }, st)
      else
        let corrected_interest_rate := elig.corrected_interest_rate
        let monthly_installment := elig.monthly_installment
        let start_date := today
        let end_date := addMonths today tenure
        let loan : Loan :=
          { loan_id := st.next_loan_id, customer_id := customer_id,
            loan_amount := loan_amount, tenure := tenure,
            interest_rate := corrected_interest_rate,
            monthly_repayment := round2 monthly_installment,
            emis_paid_on_time := 0, start_date := start_date,
            end_date := end_date }
        let st1 := createLoanWrite loan st
        let st2 := saveCustomerWrite customer_id (pyInt loan_amount) st1
        (.ok { loan_id := some loan.loan_id, customer_id := customer_id,
               loan_approved := true,
               message := "Loan approved and created successfully",
               monthly_installment := round2 monthly_installment }, st2)

/-- Updating the debt of the found customer updates exactly that record. -/
lemma find?_updateCustomerDebt (customers : List Customer) (cid delta : ℤ)
    (c : Customer)
    (h : customers.find? (fun x => x.customer_id == cid) = some c) :
    (updateCustomerDebt customers cid delta).find?
        (fun x => x.customer_id == cid) =
      some { c with current_debt := c.current_debt + delta } := by
  induction customers with
  | nil => simp at h
  | cons a as ih =>
    by_cases ha : (a.customer_id == cid) = true
    · simp only [List.find?, ha] at h
      injection h with h
      subst h
      show (List.map _ (a :: as)).find? _ = _
      simp only [List.map_cons, if_pos ha]
      simp [List.find?, ha]
    · have ha2 : (a.customer_id == cid) = false := by simpa using ha
      simp only [List.find?, ha2] at h
      show (List.map _ (a :: as)).find? _ = _
      simp only [List.map_cons, if_neg ha]
      simp only [List.find?, ha2]
      exact ih h

/-- Scenario data for the origination claims: the small approvable request
(1200 at rate 120 for one month) against a store holding only
`approve_customer`. -/
def wit_today : PyDate := ⟨2024, 5, 15⟩

def wit_state : State := ⟨[approve_customer], [], 1⟩

/-- The eligibility response of the witness scenario. -/
def wit_elig : EligibilityOk := ⟨1, true, 120, 120, 1, 1320, none⟩

/-- The loan record the witness scenario persists. -/
def wit_loan : Loan := ⟨1, 1, 1200, 1, 120, 1320, 0, ⟨2024, 5, 15⟩, ⟨2024, 6, 15⟩⟩

set_option maxRecDepth 8000 in
/-- C6: loan creation and the debt update are two sequential store writes
with no transaction around them; after the first write alone - the state
reached if an error occurs before `customer.save()` - the loan is persisted
while current_debt is unchanged, the partial outcome the spec forbids. -/
theorem C6_origination_writes_not_atomic :
    (create_loan wit_today wit_state 1 1200 120 1).2 =
      saveCustomerWrite 1 (pyInt 1200) (createLoanWrite wit_loan wit_state) ∧
    (createLoanWrite wit_loan wit_state).loans = [wit_loan] ∧
    ((createLoanWrite wit_loan wit_state).customers.find?
        (fun x => x.customer_id == 1)).map (·.current_debt) = some 0 := by
  refine ⟨?_, ?_, ?_⟩ <;> with_unfolding_all decide

/-- C7: an approved origination returns 201 with the new loan id and applies
both writes: the persisted loan carries the corrected rate, the rounded
installment, zero EMIs paid, start today and end today plus tenure months,
and the found customer's debt grows by the truncated principal. -/
theorem C7_approved_origination_persists (today : PyDate) (st : State)
    (cid : ℤ) (amt rate : ℚ) (ten : ℤ) (e : EligibilityOk)
    (hv : ¬(cid = 0 ∨ amt = 0 ∨ rate = 0 ∨ ten = 0))
    (hok : check_eligibility today.year st.customers st.loans cid amt rate ten =
      .ok e)
    (happ : e.approval = true) :
    ∃ loan : Loan,
      create_loan today st cid amt rate ten =
        (.ok { loan_id := some st.next_loan_id, customer_id := cid,
               loan_approved := true,
               message := "Loan approved and created successfully",
               monthly_installment := round2 e.monthly_installment },
         saveCustomerWrite cid (pyInt amt) (createLoanWrite loan st)) ∧
      loan.interest_rate = e.corrected_interest_rate ∧
      loan.monthly_repayment = round2 e.monthly_installment ∧
      loan.emis_paid_on_time = 0 ∧
      loan.start_date = today ∧
      loan.end_date = addMonths today ten ∧
      (saveCustomerWrite cid (pyInt amt) (createLoanWrite loan st)).loans =
        st.loans ++ [loan] ∧
      ∀ c, st.customers.find? (fun x => x.customer_id == cid) = some c →
        (saveCustomerWrite cid (pyInt amt) (createLoanWrite loan st)).customers.find?
            (fun x => x.customer_id == cid) =
          some { c with current_debt := c.current_debt + pyInt amt } := by
  refine ⟨{ loan_id := st.next_loan_id, customer_id := cid, loan_amount := amt,
            tenure := ten, interest_rate := e.corrected_interest_rate,
            monthly_repayment := round2 e.monthly_installment,
            emis_paid_on_time := 0, start_date := today,
            end_date := addMonths today ten },
      ?_, rfl, rfl, rfl, rfl, rfl, rfl, ?_⟩
  · unfold create_loan
    rw [if_neg hv, hok]
    split
    · rename_i e2 heq
      exact absurd heq (by simp)
    · rename_i elig heq
      injection heq with heq
      subst heq
      rw [if_neg (not_not_intro happ)]
  · intro c hc
    exact find?_updateCustomerDebt st.customers cid (pyInt amt) c hc

/-- Witness for C7 at the concrete approvable scenario. -/
theorem C7_approved_origination_persists_witness :
    ∃ loan : Loan,
      create_loan wit_today wit_state 1 1200 120 1 =
        (.ok { loan_id := some wit_state.next_loan_id, customer_id := 1,
               loan_approved := true,
               message := "Loan approved and created successfully",
               monthly_installment := round2 wit_elig.monthly_installment },
         saveCustomerWrite 1 (pyInt 1200) (createLoanWrite loan wit_state)) ∧
      loan.interest_rate = wit_elig.corrected_interest_rate ∧
      loan.monthly_repayment = round2 wit_elig.monthly_installment ∧
      loan.emis_paid_on_time = 0 ∧
      loan.start_date = wit_today ∧
      loan.end_date = addMonths wit_today 1 ∧
      (saveCustomerWrite 1 (pyInt 1200) (createLoanWrite loan wit_state)).loans =
        wit_state.loans ++ [loan] ∧
      ∀ c, wit_state.customers.find? (fun x => x.customer_id == 1) = some c →
        (saveCustomerWrite 1 (pyInt 1200)
            (createLoanWrite loan wit_state)).customers.find?
            (fun x => x.customer_id == 1) =
          some { c with current_debt := c.current_debt + pyInt 1200 } :=
  C7_approved_origination_persists wit_today wit_state 1 1200 120 1 wit_elig
    (by decide) (by with_unfolding_all rfl) rfl

end CreditApproval
